import Mathlib

/-!
Shallow embedding of the impacted-areas-identification engine:
date-bracket selection, NaN-aware vegetation-index differencing and
thresholding, impacted-area percentage computation, vegetation-index
dispatch, and the STAC nearest-clear-image search.

Python `datetime.date` values are modelled as integers (days since an
epoch): date comparison and `(a - b).days` become integer comparison and
subtraction.  Raster cells are `Option ℚ`, `none` standing for NaN.
Python scalars that can be NaN or infinite (results of numpy true
division) are modelled by the `PyFloat` type.  Functions that can raise
return `Except String`.
-/

namespace ImpactedAreas

/-- A Python `datetime.date`, as a count of days. -/
abbrev Date := ℤ

/-- Message raised by Python `min()` on an empty iterable. -/
def emptyMinMsg : String := "min() arg is an empty sequence"

/-- Message raised by Python `max()` on an empty iterable. -/
def emptyMaxMsg : String := "max() arg is an empty sequence"

/-- Python `min(iterable)`: least element, `ValueError` when empty. -/
def pyMin (l : List Date) : Except String Date :=
  match l.min? with
  | some m => Except.ok m
  | none => Except.error emptyMinMsg

/-- Python `max(iterable)`: greatest element, `ValueError` when empty. -/
def pyMax (l : List Date) : Except String Date :=
  match l.max? with
  | some m => Except.ok m
  | none => Except.error emptyMaxMsg

namespace Identificator

/-- Embeds `ImpactedAreasIdentificator.find_nearest_dates`
(impacted_areas_identification.py, lines 188-196).

```
list_inferior = filter(lambda x: x < event_date, date_list)
nearest_superior = min(filter(lambda x: x > event_date, date_list))
for date_before in list_inferior:
    difference = nearest_superior - date_before
    if difference.days >= min_duration:
        nearest_inferior = date_before
if 'nearest_inferior' not in locals():
    nearest_inferior = max(filter(lambda x: x < event_date, date_list))
return {"before_event_date": nearest_inferior, "after_event_date": nearest_superior}
```

The for-loop has no `break`: each match overwrites `nearest_inferior`, so
after the loop it holds the LAST matching inferior date.  The loop is
embedded as a `foldl` whose accumulator is the current binding of the
local `nearest_inferior` (`none` = not yet assigned, mirroring the
`'nearest_inferior' not in locals()` test). -/
def find_nearest_dates (event_date : Date) (min_duration : ℤ) (date_list : List Date) :
    Except String (Date × Date) :=
  let list_inferior := date_list.filter (fun x => decide (x < event_date))
  match pyMin (date_list.filter (fun x => decide (event_date < x))) with
  | Except.error e => Except.error e
  | Except.ok nearest_superior =>
    match list_inferior.foldl
        (fun acc date_before =>
          if min_duration ≤ nearest_superior - date_before then some date_before else acc)
        none with
    | some nearest_inferior => Except.ok (nearest_inferior, nearest_superior)
    | none =>
      match pyMax (date_list.filter (fun x => decide (x < event_date))) with
      | Except.error e => Except.error e
      | Except.ok nearest_inferior => Except.ok (nearest_inferior, nearest_superior)

end Identificator

namespace Processor

/-- Embeds `ImpactedAreasIdentificationProcessor.find_nearest_dates`
(processor.py, lines 266-280): same code as the identificator version,
except that the for-loop ends in `break` on the first match, embedded as
`List.find?`.  (`event_date.date()` in the comparisons is the identity in
the day-count model.) -/
def find_nearest_dates (event_date : Date) (min_duration : ℤ) (date_list : List Date) :
    Except String (Date × Date) :=
  let list_inferior := date_list.filter (fun x => decide (x < event_date))
  match pyMin (date_list.filter (fun x => decide (event_date < x))) with
  | Except.error e => Except.error e
  | Except.ok nearest_superior =>
    match list_inferior.find?
        (fun date_before => decide (min_duration ≤ nearest_superior - date_before)) with
    | some nearest_inferior => Except.ok (nearest_inferior, nearest_superior)
    | none =>
      match pyMax (date_list.filter (fun x => decide (x < event_date))) with
      | Except.error e => Except.error e
      | Except.ok nearest_inferior => Except.ok (nearest_inferior, nearest_superior)

end Processor

/-! ## Rasters

A 2-D raster is a list of rows of cells; a cell is `none` for NaN and
`some q` for a (finite) value. -/

/-- One raster pixel: `none` is NaN. -/
abbrev Cell := Option ℚ

/-- A 2-D raster. -/
abbrev Grid := List (List Cell)

/-- Elementwise binary operation on two rasters (xarray broadcasting on
identically-shaped inputs). -/
def gridZip (f : Cell → Cell → Cell) (g h : Grid) : Grid :=
  List.zipWith (List.zipWith f) g h

/-- Elementwise unary operation on a raster. -/
def gridMap (f : Cell → Cell) (g : Grid) : Grid :=
  g.map (List.map f)

/-- Python `sum(sum(x.notnull()))`: the number of non-NaN cells. -/
def notnullCount (g : Grid) : ℕ :=
  (g.map (fun row => row.countP (fun c => c.isSome))).sum

/-- The cell at row `i`, column `j` (`none` when out of range). -/
def cellAt (g : Grid) (i j : ℕ) : Option Cell :=
  (g[i]?).bind (fun row => row[j]?)

/-- Elementwise subtraction `a - b`; NaN operands propagate. -/
def subCell (a b : Cell) : Cell :=
  match a, b with
  | some x, some y => some (x - y)
  | _, _ => none

/-- Pointwise `x.where(cond)`: keep the cell where the condition holds, NaN elsewhere. -/
def whereCell (cond : Bool) (c : Cell) : Cell :=
  if cond then c else none

/-- Per-cell composite of `ds_after - ds_before` followed by
`.where(~np.logical_or(np.isnan(ds_before), np.isnan(ds_after)))`
(impacted_areas_identification.py line 243). -/
def diffCell (after before : Cell) : Cell :=
  whereCell (!(before.isNone || after.isNone)) (subCell after before)

/-- The NaN-masked difference raster `vi_difference_result` of
`calculate_and_filter_vi_difference_by_threshold` before thresholding.
The `squeeze().drop(...)` steps only strip singleton time/band
coordinates and do not change any value. -/
def vi_difference (before after : Grid) : Grid :=
  gridZip diffCell after before

/-- Per-cell effect of `.where(vi_difference_result < threshold)`:
NaN compares false, so NaN stays NaN, and a value survives iff it is
strictly below the threshold. -/
def thresholdCell (threshold : ℚ) (c : Cell) : Cell :=
  match c with
  | some v => if v < threshold then some v else none
  | none => none

/-- The value returned by `calculate_and_filter_vi_difference_by_threshold`:
a raster together with its `geometry_size_px` coordinate. -/
structure ViDiffResult where
  cells : Grid
  geometry_size_px : ℕ
deriving Repr, DecidableEq

/-- Embeds `ImpactedAreasIdentificator.calculate_and_filter_vi_difference_by_threshold`
(impacted_areas_identification.py lines 221-245; verbatim copy in
processor.py lines 318-350):

```
vi_difference_result = (ds_after - ds_before).where(~np.logical_or(np.isnan(ds_before), np.isnan(ds_after)))
vi_difference_result = vi_difference_result.assign_coords(geometry_size_px=sum(sum(vi_difference_result.notnull())).values)
return vi_difference_result.where(vi_difference_result < threshold)
```

`geometry_size_px` is assigned from the unfiltered masked difference and
carried unchanged through the final `.where`. -/
def calculate_and_filter_vi_difference_by_threshold (before after : Grid) (threshold : ℚ) :
    ViDiffResult :=
  let d := vi_difference before after
  { cells := gridMap (thresholdCell threshold) d
    geometry_size_px := notnullCount d }

/-! ## Python floats with NaN and infinities

Results of numpy true division of integer counts. -/

/-- A Python float that may be NaN or infinite. -/
inductive PyFloat where
  | nan : PyFloat
  | posinf : PyFloat
  | neginf : PyFloat
  | val : ℚ → PyFloat
deriving Repr, DecidableEq

/-- numpy true division of two nonnegative integer counts: a zero
denominator warns and yields nan (0/0) or +inf (k/0, k > 0) instead of
raising. -/
def pyDivNat (a b : ℕ) : PyFloat :=
  if b = 0 then (if a = 0 then PyFloat.nan else PyFloat.posinf)
  else PyFloat.val ((a : ℚ) / (b : ℚ))

/-- Multiplication of a float by a finite rational scalar, IEEE rules
(`0 * inf = nan`, `c * nan = nan`). -/
def pyScaleMul (c : ℚ) : PyFloat → PyFloat
  | PyFloat.nan => PyFloat.nan
  | PyFloat.posinf =>
      if 0 < c then PyFloat.posinf else if c < 0 then PyFloat.neginf else PyFloat.nan
  | PyFloat.neginf =>
      if 0 < c then PyFloat.neginf else if c < 0 then PyFloat.posinf else PyFloat.nan
  | PyFloat.val q => PyFloat.val (c * q)

/-- Division of a float by a finite rational scalar, IEEE rules. -/
def pyScaleDiv (x : PyFloat) (c : ℚ) : PyFloat :=
  match x with
  | PyFloat.nan => PyFloat.nan
  | PyFloat.posinf => if c < 0 then PyFloat.neginf else PyFloat.posinf
  | PyFloat.neginf => if c < 0 then PyFloat.posinf else PyFloat.neginf
  | PyFloat.val q =>
      if c = 0 then (if q = 0 then PyFloat.nan else if 0 < q then PyFloat.posinf else PyFloat.neginf)
      else PyFloat.val (q / c)

/-- Embeds `ImpactedAreasIdentificator.calculate_impacted_area`
(impacted_areas_identification.py lines 295-312; verbatim copy in
processor.py lines 435-454):

```
geometry_area = self.calculate_geometry_area(polygon)
impacted_area_percentage = (sum(sum(impacted_area.notnull())) / impacted_area.geometry_size_px.values) * 100
impacted_area = geometry_area * impacted_area_percentage / 100
return impacted_area, impacted_area_percentage
```

`calculate_geometry_area` delegates to pyproj's WGS84 geodesic-area
routine (external library); its `abs`-wrapped result enters here as the
`geometry_area` argument.  No statement of the body can raise: the
integer division by a zero `geometry_size_px` warns and produces
nan/inf, so every path returns. -/
def calculate_impacted_area (geometry_area : ℚ) (impacted_area : ViDiffResult) :
    Except String (PyFloat × PyFloat) :=
  let impacted_area_percentage :=
    pyScaleMul 100 (pyDivNat (notnullCount impacted_area.cells) impacted_area.geometry_size_px)
  Except.ok
    (pyScaleDiv (pyScaleMul geometry_area impacted_area_percentage) 100,
     impacted_area_percentage)

/-! ## STAC nearest-clear-image search -/

/-- The cloud-masked data cube handed to
`get_nearest_event_date_time_indices`: its ascending time coordinate, the
non-NaN pixel count of the red band at each time slice, and the
`raw_image_size` denominator recorded by
`apply_cloud_mask_to_raw_images_datacube`. -/
structure StacDatacube where
  times : List Date
  redNotnull : Date → ℕ
  raw_image_size : ℕ

/-- Computes `datacube.red.sel(time=t).notnull().sum() / datacube.raw_image_size`. -/
def cloud_free_percentage (cube : StacDatacube) (t : Date) : ℚ :=
  (cube.redNotnull t : ℚ) / (cube.raw_image_size : ℚ)

/-- Embeds `ImpactedAreasIdentificator.get_nearest_event_date_time_indices`
(impacted_areas_identification.py lines 570-598).  The first loop scans
`datacube.sel(time=slice(None, event_date - 1 day)).time[::-1]` — the
slices strictly before the event date, latest first — and keeps the first
whose clear fraction exceeds `1 - max_cloud_cover_percentage * 0.01`,
then breaks.  The second scans the slices strictly after the event date
in forward order and keeps the first whose clear fraction exceeds
`max_cloud_cover_percentage * 0.01`.  A side whose loop never fires is
absent from the returned dict (`none` here).  The float literal `0.01`
is idealised to the exact rational 1/100. -/
def get_nearest_event_date_time_indices (cube : StacDatacube) (event_date : Date)
    (max_cloud_cover_percentage : ℤ) : Option Date × Option Date :=
  let p : ℚ := (max_cloud_cover_percentage : ℚ) * (1 / 100)
  let before := ((cube.times.filter (fun t => decide (t ≤ event_date - 1))).reverse).find?
      (fun t => decide (1 - p < cloud_free_percentage cube t))
  let after := (cube.times.filter (fun t => decide (event_date + 1 ≤ t))).find?
      (fun t => decide (p < cloud_free_percentage cube t))
  (before, after)

/-! ## Vegetation-index dispatch -/

/-- The `VegetationIndex` enum (vegetation_index.py). -/
inductive VegetationIndex where
  | NDVI | EVI | GNDVI | NDWI | CVI | CVIn | LAI
deriving Repr, DecidableEq

/-- The Python class name an enum member's dict entry constructs. -/
def indexName : VegetationIndex → String
  | VegetationIndex.NDVI => "NDVI"
  | VegetationIndex.EVI => "EVI"
  | VegetationIndex.GNDVI => "GNDVI"
  | VegetationIndex.NDWI => "NDWI"
  | VegetationIndex.CVI => "CVI"
  | VegetationIndex.CVIn => "CVIn"
  | VegetationIndex.LAI => "LAI"

/-- A multispectral image: the named bands the calculators read. -/
structure Image where
  nir : Grid
  red : Grid
  green : Grid
  blue : Grid

/-- Elementwise addition. -/
def addCell (a b : Cell) : Cell :=
  match a, b with
  | some x, some y => some (x + y)
  | _, _ => none

/-- Elementwise multiplication. -/
def mulCell (a b : Cell) : Cell :=
  match a, b with
  | some x, some y => some (x * y)
  | _, _ => none

/-- Elementwise division.  A zero denominator yields inf or nan under
IEEE; both are invalid for every downstream use, so they are collapsed
to `none` here. -/
def divCell (a b : Cell) : Cell :=
  match a, b with
  | some x, some y => if y = 0 then none else some (x / y)
  | _, _ => none

/-- Multiplication by a scalar constant. -/
def scaleCell (c : ℚ) (a : Cell) : Cell :=
  match a with
  | some x => some (c * x)
  | none => none

/-- Addition of a scalar constant. -/
def addConstCell (c : ℚ) (a : Cell) : Cell :=
  match a with
  | some x => some (x + c)
  | none => none

/-- Formula `NDVI.calculate`: `(nir - red) / (nir + red)`. -/
def ndviCalculate (image : Image) : Grid :=
  gridZip divCell (gridZip subCell image.nir image.red) (gridZip addCell image.nir image.red)

/-- Formula `EVI.calculate`: `2.5 * ((nir - red) / (nir + 6*red - 7.5*blue + 1))`. -/
def eviCalculate (image : Image) : Grid :=
  gridMap (scaleCell (5/2))
    (gridZip divCell (gridZip subCell image.nir image.red)
      (gridMap (addConstCell 1)
        (gridZip subCell (gridZip addCell image.nir (gridMap (scaleCell 6) image.red))
          (gridMap (scaleCell (15/2)) image.blue))))

/-- Formula `GNDVI.calculate`: `(nir - green) / (nir + green)`. -/
def gndviCalculate (image : Image) : Grid :=
  gridZip divCell (gridZip subCell image.nir image.green)
    (gridZip addCell image.nir image.green)

/-- Formula `CVI.calculate`: `nir * (red / green)`. -/
def cviCalculate (image : Image) : Grid :=
  gridZip mulCell image.nir (gridZip divCell image.red image.green)

/-- The calculator classes vegetation_index_calculator.py defines (and
`import *` brings into the namespace of impacted_areas_identification.py):
NDVI, EVI, GNDVI and CVI only.  No class named NDWI, LAI or CVIn exists
anywhere in the repository. -/
def moduleCalculator : VegetationIndex → Option (Image → Grid)
  | VegetationIndex.NDVI => some ndviCalculate
  | VegetationIndex.EVI => some eviCalculate
  | VegetationIndex.GNDVI => some gndviCalculate
  | VegetationIndex.CVI => some cviCalculate
  | _ => none

/-- Message of the NameError raised when evaluating a constructor
expression whose class name is not in scope. -/
def nameErrorMsg (v : VegetationIndex) : String :=
  "NameError: name " ++ indexName v ++ " is not defined"

/-- Message of the ValueError on an indicator absent from the dict. -/
def invalidIndicatorMsg : String := "Invalid vegetation indicator."

/-- Evaluating the constructor expression `Name()` inside the dict
literal: a NameError when no class of that name is in scope. -/
def resolveClassName (v : VegetationIndex) : Except String (Image → Grid) :=
  match moduleCalculator v with
  | some c => Except.ok c
  | none => Except.error (nameErrorMsg v)

/-- Embeds `ImpactedAreasIdentificator.calculate_vegetation_index`
(impacted_areas_identification.py lines 490-513):

```
indicator_map = {
    VegetationIndex.NDVI: NDVI(),
    VegetationIndex.EVI: EVI(),
    VegetationIndex.CVI: CVI(),
    VegetationIndex.GNDVI: GNDVI(),
    VegetationIndex.NDWI: NDWI(),
    VegetationIndex.LAI: LAI(),
}
index = indicator_map.get(indicator)
if index is None:
    raise ValueError("Invalid vegetation indicator.")
return index.calculate(image)
```

The dict literal evaluates all six constructor expressions eagerly, in
source order, before `.get(indicator)` runs, so every name must resolve
on every call. -/
def calculate_vegetation_index (image : Image) (indicator : VegetationIndex) :
    Except String Grid := do
  let cNDVI ← resolveClassName VegetationIndex.NDVI
  let cEVI ← resolveClassName VegetationIndex.EVI
  let cCVI ← resolveClassName VegetationIndex.CVI
  let cGNDVI ← resolveClassName VegetationIndex.GNDVI
  let cNDWI ← resolveClassName VegetationIndex.NDWI
  let cLAI ← resolveClassName VegetationIndex.LAI
  let index : Option (Image → Grid) :=
    match indicator with
    | VegetationIndex.NDVI => some cNDVI
    | VegetationIndex.EVI => some cEVI
    | VegetationIndex.CVI => some cCVI
    | VegetationIndex.GNDVI => some cGNDVI
    | VegetationIndex.NDWI => some cNDWI
    | VegetationIndex.LAI => some cLAI
    | VegetationIndex.CVIn => none
  match index with
  | some idx => Except.ok (idx image)
  | none => Except.error invalidIndicatorMsg

/-- A concrete cloud-masked data cube used to exercise the
nearest-clear-image search: six time slices around an event on day 4,
with clear-pixel counts 9 at day 2 and 3 at day 6, all others 1, out of
a raw image size of 10. -/
def witnessCube : StacDatacube where
  times := [1, 2, 3, 5, 6, 7]
  redNotnull := fun t => if t = 2 then 9 else if t = 6 then 3 else 1
  raw_image_size := 10

/-! ## Helper lemmas -/

instance : Std.Antisymm ((· : ℤ) ≤ ·) := ⟨fun h1 h2 => le_antisymm h1 h2⟩

theorem int_min?_eq_some {xs : List ℤ} {a : ℤ} :
    xs.min? = some a ↔ a ∈ xs ∧ ∀ b ∈ xs, a ≤ b :=
  List.min?_eq_some_iff (fun x => le_refl x) (fun x y => min_choice x y)
    (fun _ _ _ => le_min_iff)

theorem int_max?_eq_some {xs : List ℤ} {a : ℤ} :
    xs.max? = some a ↔ a ∈ xs ∧ ∀ b ∈ xs, b ≤ a :=
  List.max?_eq_some_iff (fun x => le_refl x) (fun x y => max_choice x y)
    (fun _ _ _ => max_le_iff)

/-- A fold that overwrites its accumulator at every match ends at the
last match, or at `init` when nothing matches. -/
theorem foldl_overwrite {p : ℤ → Prop} [DecidablePred p] (l : List ℤ) (init : Option ℤ) :
    l.foldl (fun acc d => if p d then some d else acc) init =
      Option.or ((l.filter (fun d => decide (p d))).getLast?) init := by
  induction l generalizing init with
  | nil => rfl
  | cons a l ih =>
    rw [List.foldl_cons, ih]
    by_cases h : p a
    · rw [if_pos h, List.filter_cons_of_pos (by simpa using h), List.getLast?_cons]
      cases hl : (List.filter (fun d => decide (p d)) l).getLast? <;>
        simp [hl, Option.or]
    · rw [if_neg h, List.filter_cons_of_neg (by simpa using h)]

/-- A find-first loop returns the head of the filtered list. -/
theorem find?_eq_head?_filter (p : ℤ → Bool) (l : List ℤ) :
    l.find? p = (l.filter p).head? := by
  induction l with
  | nil => rfl
  | cons a l ih =>
    by_cases h : p a
    · rw [List.find?_cons_of_pos _ h, List.filter_cons_of_pos h, List.head?_cons]
    · rw [List.find?_cons_of_neg _ h, List.filter_cons_of_neg h, ih]

/-- On a pairwise-`R` list (for asymmetric `R`), `find?` returns exactly
the `R`-least element satisfying the predicate. -/
theorem find?_pairwise_eq_some {R : ℤ → ℤ → Prop}
    (hasymm : ∀ x y, R x y → R y x → False) {q : ℤ → Bool} {l : List ℤ}
    (hl : l.Pairwise R) {x : ℤ} :
    l.find? q = some x ↔
      x ∈ l ∧ q x = true ∧ ∀ y ∈ l, q y = true → x = y ∨ R x y := by
  induction l with
  | nil => simp
  | cons a l ih =>
    obtain ⟨ha, hl'⟩ := List.pairwise_cons.mp hl
    by_cases h : q a
    · rw [List.find?_cons_of_pos _ h]
      constructor
      · intro hx
        obtain rfl : a = x := by injection hx
        refine ⟨List.mem_cons_self a l, h, ?_⟩
        intro y hy _
        rcases List.mem_cons.mp hy with rfl | hy'
        · exact Or.inl rfl
        · exact Or.inr (ha y hy')
      · rintro ⟨hx, _, hmax⟩
        rcases List.mem_cons.mp hx with rfl | hx'
        · rfl
        · rcases hmax a (List.mem_cons_self a l) h with rfl | hR
          · rfl
          · exact ((hasymm x a hR (ha x hx')).elim)
    · rw [List.find?_cons_of_neg _ h, ih hl']
      constructor
      · rintro ⟨hx, hqx, hmax⟩
        refine ⟨List.mem_cons_of_mem a hx, hqx, ?_⟩
        intro y hy hqy
        rcases List.mem_cons.mp hy with rfl | hy'
        · exact absurd hqy (by simpa using h)
        · exact hmax y hy' hqy
      · rintro ⟨hx, hqx, hmax⟩
        have hx' : x ∈ l := by
          rcases List.mem_cons.mp hx with rfl | hx'
          · exact absurd hqx (by simpa using h)
          · exact hx'
        exact ⟨hx', hqx, fun y hy hqy => hmax y (List.mem_cons_of_mem a hy) hqy⟩

/-- Reading a cell of an elementwise combination of two rasters. -/
theorem cellAt_gridZip (f : Cell → Cell → Cell) (g h : Grid) (i j : ℕ) {x y : Cell}
    (hx : cellAt g i j = some x) (hy : cellAt h i j = some y) :
    cellAt (gridZip f g h) i j = some (f x y) := by
  unfold cellAt at hx hy
  obtain ⟨rowg, hrowg, hxj⟩ := Option.bind_eq_some.mp hx
  obtain ⟨rowh, hrowh, hyj⟩ := Option.bind_eq_some.mp hy
  have h1 : (gridZip f g h)[i]? = some (List.zipWith f rowg rowh) := by
    unfold gridZip
    rw [List.getElem?_zipWith, hrowg, hrowh]
  unfold cellAt
  rw [h1, Option.some_bind, List.getElem?_zipWith, hxj, hyj]

/-- Reading a cell of an elementwise image of a raster. -/
theorem cellAt_gridMap (f : Cell → Cell) (g : Grid) (i j : ℕ) :
    cellAt (gridMap f g) i j = Option.map f (cellAt g i j) := by
  unfold cellAt gridMap
  rw [List.getElem?_map]
  cases hrow : g[i]? with
  | none => rfl
  | some row => simp [List.getElem?_map]

/-- A cellwise map that never turns NaN into a value cannot increase the
non-NaN count. -/
theorem notnullCount_gridMap_le (f : Cell → Cell)
    (hf : ∀ c : Cell, (f c).isSome = true → c.isSome = true) (g : Grid) :
    notnullCount (gridMap f g) ≤ notnullCount g := by
  induction g with
  | nil => exact le_refl _
  | cons row rows ih =>
    unfold notnullCount gridMap at ih ⊢
    simp only [List.map_cons, List.sum_cons]
    refine Nat.add_le_add ?_ ih
    rw [List.countP_map]
    exact List.countP_mono_left (fun c _ hc => hf c hc)

/-- A list with at most one element has equal head and last. -/
theorem head?_eq_getLast?_of_length_le_one {l : List ℤ} (h : l.length ≤ 1) :
    l.head? = l.getLast? := by
  match l with
  | [] => rfl
  | [a] => rfl
  | a :: b :: t => simp at h

/-- Closed form of the identificator's `find_nearest_dates`: the
before-date is the LAST inferior date whose gap to the chosen
after-date meets `min_duration`, with fallback to the maximum inferior
date. -/
theorem ident_find_nearest_dates_eq (event_date min_duration : ℤ) (date_list : List Date) :
    Identificator.find_nearest_dates event_date min_duration date_list =
      match (date_list.filter (fun x => decide (event_date < x))).min? with
      | none => Except.error emptyMinMsg
      | some ns =>
        match ((date_list.filter (fun x => decide (x < event_date))).filter
            (fun d => decide (min_duration ≤ ns - d))).getLast? with
        | some ni => Except.ok (ni, ns)
        | none =>
          match (date_list.filter (fun x => decide (x < event_date))).max? with
          | none => Except.error emptyMaxMsg
          | some ni => Except.ok (ni, ns) := by
  unfold Identificator.find_nearest_dates pyMin pyMax
  cases hmin : (date_list.filter (fun x => decide (event_date < x))).min? with
  | none => rfl
  | some ns =>
    dsimp only
    rw [foldl_overwrite]
    cases hL : ((date_list.filter (fun x => decide (x < event_date))).filter
        (fun d => decide (min_duration ≤ ns - d))).getLast? with
    | some ni => simp [Option.or]
    | none =>
      cases hmax : (date_list.filter (fun x => decide (x < event_date))).max? with
      | none => simp [Option.or]
      | some m => simp [Option.or]

/-- Closed form of the processor's `find_nearest_dates`: identical to the
identificator's except the before-date is the FIRST matching inferior
date. -/
theorem proc_find_nearest_dates_eq (event_date min_duration : ℤ) (date_list : List Date) :
    Processor.find_nearest_dates event_date min_duration date_list =
      match (date_list.filter (fun x => decide (event_date < x))).min? with
      | none => Except.error emptyMinMsg
      | some ns =>
        match ((date_list.filter (fun x => decide (x < event_date))).filter
            (fun d => decide (min_duration ≤ ns - d))).head? with
        | some ni => Except.ok (ni, ns)
        | none =>
          match (date_list.filter (fun x => decide (x < event_date))).max? with
          | none => Except.error emptyMaxMsg
          | some ni => Except.ok (ni, ns) := by
  unfold Processor.find_nearest_dates pyMin pyMax
  cases hmin : (date_list.filter (fun x => decide (event_date < x))).min? with
  | none => rfl
  | some ns =>
    dsimp only
    rw [find?_eq_head?_filter]
    cases hL : ((date_list.filter (fun x => decide (x < event_date))).filter
        (fun d => decide (min_duration ≤ ns - d))).head? with
    | some ni => rfl
    | none =>
      cases hmax : (date_list.filter (fun x => decide (x < event_date))).max? with
      | none => rfl
      | some m => rfl

/-- What `min?` of the superior filter says about the chosen after-date. -/
theorem min_sup_spec {event_date : ℤ} {date_list : List Date} {a : ℤ}
    (hmin : (date_list.filter (fun x => decide (event_date < x))).min? = some a) :
    a ∈ date_list ∧ event_date < a ∧ ∀ x ∈ date_list, event_date < x → a ≤ x := by
  obtain ⟨hmem, hle⟩ := int_min?_eq_some.mp hmin
  obtain ⟨hmem', hlt⟩ := List.mem_filter.mp hmem
  exact ⟨hmem', of_decide_eq_true hlt, fun x hx hlt' =>
    hle x (List.mem_filter.mpr ⟨hx, decide_eq_true hlt'⟩)⟩

/-! ## Claim theorems -/

/-- Claim C1 counterexample: with event day 10, `min_duration` 0 and
ascending dates `[1, 2, 20]`, the identificator's `find_nearest_dates`
returns before-date 2, while the FIRST inferior date whose gap to the
after-date 20 is at least the minimum duration is 1 — its loop has no
break, so it keeps the last match, not the first. -/
theorem find_nearest_dates_not_first_match :
    Identificator.find_nearest_dates 10 0 [1, 2, 20] = Except.ok (2, 20) ∧
    (([1, 2, 20] : List Date).filter (fun x => decide (x < 10))).find?
        (fun d => decide ((0 : ℤ) ≤ 20 - d)) = some 1 ∧
    (2 : ℤ) ≠ 1 :=
  ⟨rfl, rfl, by decide⟩

/-- Claim C1 (amended): when both a superior date (with minimum `a`) and
an inferior date (with maximum `m`) exist, the identificator's
`find_nearest_dates` returns as before-date the LAST inferior date (in
the list's ascending order) whose gap to `a` is at least `min_duration`
— its scan does not stop at a match — while the processor's returns the
FIRST such date; both fall back to the maximum inferior date `m` when no
inferior date satisfies the gap constraint, and both return `a` as
`after_event_date`. -/
theorem find_nearest_dates_last_vs_first (event_date min_duration : ℤ)
    (date_list : List Date) (a m : ℤ)
    (hmin : (date_list.filter (fun x => decide (event_date < x))).min? = some a)
    (hmax : (date_list.filter (fun x => decide (x < event_date))).max? = some m) :
    Identificator.find_nearest_dates event_date min_duration date_list =
      Except.ok ((((date_list.filter (fun x => decide (x < event_date))).filter
          (fun d => decide (min_duration ≤ a - d))).getLast?).getD m, a) ∧
    Processor.find_nearest_dates event_date min_duration date_list =
      Except.ok ((((date_list.filter (fun x => decide (x < event_date))).filter
          (fun d => decide (min_duration ≤ a - d))).head?).getD m, a) := by
  rw [ident_find_nearest_dates_eq, proc_find_nearest_dates_eq, hmin, hmax]
  dsimp only
  constructor
  · cases hL : ((date_list.filter (fun x => decide (x < event_date))).filter
        (fun d => decide (min_duration ≤ a - d))).getLast? with
    | some ni => rfl
    | none => rfl
  · cases hL : ((date_list.filter (fun x => decide (x < event_date))).filter
        (fun d => decide (min_duration ≤ a - d))).head? with
    | some ni => rfl
    | none => rfl

/-- Claim C1 witness: with event day 10, `min_duration` 3 and dates
`[1, 2, 20]`, both inferior dates match the gap constraint; the
identificator keeps 2 (the last), the processor 1 (the first). -/
theorem find_nearest_dates_bracket_witness :
    Identificator.find_nearest_dates 10 3 [1, 2, 20] = Except.ok (2, 20) ∧
    Processor.find_nearest_dates 10 3 [1, 2, 20] = Except.ok (1, 20) := by
  have h := find_nearest_dates_last_vs_first 10 3 [1, 2, 20] 20 2 (by decide) (by decide)
  exact ⟨h.1.trans (congrArg Except.ok (by decide)),
    h.2.trans (congrArg Except.ok (by decide))⟩

/-- Claim C10 counterexample: the two `find_nearest_dates`
implementations return different pairs on event day 10, `min_duration`
0 and dates `[1, 2, 20]` (before-date 2 versus 1). -/
theorem find_nearest_dates_implementations_differ :
    Identificator.find_nearest_dates 10 0 [1, 2, 20] ≠
      Processor.find_nearest_dates 10 0 [1, 2, 20] := by
  intro h
  rw [show Identificator.find_nearest_dates 10 0 [1, 2, 20] = Except.ok (2, 20) from rfl,
      show Processor.find_nearest_dates 10 0 [1, 2, 20] = Except.ok (1, 20) from rfl] at h
  exact (by decide : ((2 : ℤ), (20 : ℤ)) ≠ (1, 20)) (Except.ok.inj h)

/-- Claim C10 (amended): the two implementations always agree on
`after_event_date` (and on which error they raise), and they return the
same pair whenever at most one inferior date satisfies the gap
constraint; with two or more matching inferior dates they differ (last
match versus first match). -/
theorem find_nearest_dates_implementations_agree (event_date min_duration : ℤ)
    (date_list : List Date) :
    (Identificator.find_nearest_dates event_date min_duration date_list).map (fun r => r.2) =
      (Processor.find_nearest_dates event_date min_duration date_list).map (fun r => r.2) ∧
    (∀ a, (date_list.filter (fun x => decide (event_date < x))).min? = some a →
      ((date_list.filter (fun x => decide (x < event_date))).filter
          (fun d => decide (min_duration ≤ a - d))).length ≤ 1 →
      Identificator.find_nearest_dates event_date min_duration date_list =
        Processor.find_nearest_dates event_date min_duration date_list) := by
  constructor
  · rw [ident_find_nearest_dates_eq, proc_find_nearest_dates_eq]
    cases hmin : (date_list.filter (fun x => decide (event_date < x))).min? with
    | none => rfl
    | some ns =>
      dsimp only
      cases hL : (date_list.filter (fun x => decide (x < event_date))).filter
          (fun d => decide (min_duration ≤ ns - d)) with
      | nil => rfl
      | cons b bs =>
        rw [List.getLast?_cons, List.head?_cons]
        rfl
  · intro a hmin hlen
    rw [ident_find_nearest_dates_eq, proc_find_nearest_dates_eq, hmin]
    dsimp only
    rw [head?_eq_getLast?_of_length_le_one hlen]

/-- Claim C10 witness: with `min_duration` 100 no inferior date matches,
both implementations fall back to the maximum inferior date and agree. -/
theorem find_nearest_dates_agree_witness :
    Identificator.find_nearest_dates 10 100 [1, 2, 20] =
      Processor.find_nearest_dates 10 100 [1, 2, 20] :=
  (find_nearest_dates_implementations_agree 10 100 [1, 2, 20]).2 20 (by decide) (by decide)

/-- Claim C8: in both implementations, an `after_event_date` is always
the minimum available date strictly greater than the event date; an
empty superior set raises the empty-`min()` error, and an empty inferior
set always raises some error (the empty-`min()` one when the superior
set is also empty, otherwise the empty-`max()` one). -/
theorem find_nearest_dates_after_min_and_errors (event_date min_duration : ℤ)
    (date_list : List Date) :
    (∀ b a, Identificator.find_nearest_dates event_date min_duration date_list =
        Except.ok (b, a) →
        a ∈ date_list ∧ event_date < a ∧ ∀ x ∈ date_list, event_date < x → a ≤ x) ∧
    (∀ b a, Processor.find_nearest_dates event_date min_duration date_list =
        Except.ok (b, a) →
        a ∈ date_list ∧ event_date < a ∧ ∀ x ∈ date_list, event_date < x → a ≤ x) ∧
    (date_list.filter (fun x => decide (event_date < x)) = [] →
        Identificator.find_nearest_dates event_date min_duration date_list =
          Except.error emptyMinMsg ∧
        Processor.find_nearest_dates event_date min_duration date_list =
          Except.error emptyMinMsg) ∧
    (date_list.filter (fun x => decide (x < event_date)) = [] →
        (∃ e, Identificator.find_nearest_dates event_date min_duration date_list =
          Except.error e) ∧
        (∃ e, Processor.find_nearest_dates event_date min_duration date_list =
          Except.error e)) := by
  refine ⟨?_, ?_, ?_, ?_⟩
  · intro b a h
    rw [ident_find_nearest_dates_eq] at h
    cases hmin : (date_list.filter (fun x => decide (event_date < x))).min? with
    | none => rw [hmin] at h; exact absurd h (by simp)
    | some ns =>
      rw [hmin] at h
      dsimp only at h
      have hns : ns = a := by
        cases hL : ((date_list.filter (fun x => decide (x < event_date))).filter
            (fun d => decide (min_duration ≤ ns - d))).getLast? with
        | some ni => rw [hL] at h; simpa using (And.right (by simpa using h))
        | none =>
          rw [hL] at h
          cases hmax : (date_list.filter (fun x => decide (x < event_date))).max? with
          | none => rw [hmax] at h; exact absurd h (by simp)
          | some m => rw [hmax] at h; simpa using (And.right (by simpa using h))
      exact hns ▸ min_sup_spec hmin
  · intro b a h
    rw [proc_find_nearest_dates_eq] at h
    cases hmin : (date_list.filter (fun x => decide (event_date < x))).min? with
    | none => rw [hmin] at h; exact absurd h (by simp)
    | some ns =>
      rw [hmin] at h
      dsimp only at h
      have hns : ns = a := by
        cases hL : ((date_list.filter (fun x => decide (x < event_date))).filter
            (fun d => decide (min_duration ≤ ns - d))).head? with
        | some ni => rw [hL] at h; simpa using (And.right (by simpa using h))
        | none =>
          rw [hL] at h
          cases hmax : (date_list.filter (fun x => decide (x < event_date))).max? with
          | none => rw [hmax] at h; exact absurd h (by simp)
          | some m => rw [hmax] at h; simpa using (And.right (by simpa using h))
      exact hns ▸ min_sup_spec hmin
  · intro hs
    rw [ident_find_nearest_dates_eq, proc_find_nearest_dates_eq, hs]
    exact ⟨rfl, rfl⟩
  · intro hi
    rw [ident_find_nearest_dates_eq, proc_find_nearest_dates_eq, hi]
    cases hmin : (date_list.filter (fun x => decide (event_date < x))).min? with
    | none => exact ⟨⟨emptyMinMsg, rfl⟩, ⟨emptyMinMsg, rfl⟩⟩
    | some ns => exact ⟨⟨emptyMaxMsg, rfl⟩, ⟨emptyMaxMsg, rfl⟩⟩

/-- Claim C8 witness: with event day 10 and dates `[1, 20]`, the
returned after-date 20 is the minimum date strictly after the event. -/
theorem find_nearest_dates_after_min_witness :
    (20 : ℤ) ∈ ([1, 20] : List Date) ∧ (10 : ℤ) < 20 ∧
      ∀ x ∈ ([1, 20] : List Date), 10 < x → (20 : ℤ) ≤ x :=
  (find_nearest_dates_after_min_and_errors 10 5 [1, 20]).1 1 20 rfl

/-- Claim C4: the `geometry_size_px` coordinate recorded on the mask
returned by `calculate_and_filter_vi_difference_by_threshold` is the
same for any two thresholds, and equals the non-NaN cell count of the
NaN-masked difference computed before threshold filtering. -/
theorem geometry_size_px_threshold_invariant (before after : Grid) (t1 t2 : ℚ) :
    (calculate_and_filter_vi_difference_by_threshold before after t1).geometry_size_px =
      (calculate_and_filter_vi_difference_by_threshold before after t2).geometry_size_px ∧
    (calculate_and_filter_vi_difference_by_threshold before after t1).geometry_size_px =
      notnullCount (vi_difference before after) :=
  ⟨rfl, rfl⟩

/-- Claim C5: a cell of the NaN-masked difference is NaN whenever either
input cell is NaN (the explicit isnan disjunction forces this even for a
zero-valued cell paired with a NaN one), and equals after minus before
wherever both inputs carry values. -/
theorem vi_difference_cells_spec (before after : Grid) (i j : ℕ) (b a : Cell)
    (hb : cellAt before i j = some b) (ha : cellAt after i j = some a) :
    ((b = none ∨ a = none) → cellAt (vi_difference before after) i j = some none) ∧
    (∀ x y, a = some x → b = some y →
      cellAt (vi_difference before after) i j = some (some (x - y))) := by
  have hd : cellAt (vi_difference before after) i j = some (diffCell a b) :=
    cellAt_gridZip diffCell after before i j ha hb
  constructor
  · intro h
    rw [hd]
    rcases h with h | h <;> subst h
    · simp [diffCell, whereCell]
    · simp [diffCell, whereCell]
  · intro x y hx hy
    subst hx
    subst hy
    rw [hd]
    simp [diffCell, whereCell, subCell]

/-- Claim C5 witness: one NaN-against-zero-side cell and one two-value cell. -/
theorem vi_difference_cells_witness :
    cellAt (vi_difference [[some 0, none]] [[none, some 5]]) 0 0 = some none ∧
    cellAt (vi_difference [[some 1, some 2]] [[some 3, some 5]]) 0 1 = some (some 3) := by
  constructor
  · exact (vi_difference_cells_spec [[some 0, none]] [[none, some 5]] 0 0
      (some 0) none rfl rfl).1 (Or.inr rfl)
  · have h := (vi_difference_cells_spec [[some 1, some 2]] [[some 3, some 5]] 0 1
      (some 2) (some 5) rfl rfl).2 5 2 rfl rfl
    rw [h]
    norm_num

/-- Claim C6: in the mask returned by
`calculate_and_filter_vi_difference_by_threshold`, a cell whose masked
difference was NaN stays NaN, a cell whose difference is at or above the
threshold BECOMES NaN (not zero), a cell whose difference is strictly
below the threshold keeps its value, and consequently every non-NaN
cell of the returned mask is strictly below the threshold. -/
theorem impacted_mask_threshold_spec (before after : Grid) (t : ℚ) (i j : ℕ) (d : Cell)
    (hd : cellAt (vi_difference before after) i j = some d) :
    (d = none →
      cellAt (calculate_and_filter_vi_difference_by_threshold before after t).cells i j =
        some none) ∧
    (∀ v, d = some v → t ≤ v →
      cellAt (calculate_and_filter_vi_difference_by_threshold before after t).cells i j =
        some none) ∧
    (∀ v, d = some v → v < t →
      cellAt (calculate_and_filter_vi_difference_by_threshold before after t).cells i j =
        some (some v)) ∧
    (∀ c, cellAt (calculate_and_filter_vi_difference_by_threshold before after t).cells i j =
        some c → ∀ v, c = some v → v < t) := by
  have hmask : cellAt (calculate_and_filter_vi_difference_by_threshold before after t).cells i j
      = some (thresholdCell t d) := by
    have hmap := cellAt_gridMap (thresholdCell t) (vi_difference before after) i j
    rw [hd] at hmap
    exact hmap
  refine ⟨?_, ?_, ?_, ?_⟩
  · intro h
    subst h
    simpa [thresholdCell] using hmask
  · intro v hv hle
    subst hv
    rw [hmask]
    simp [thresholdCell, if_neg (not_lt.mpr hle)]
  · intro v hv hlt
    subst hv
    rw [hmask]
    simp [thresholdCell, if_pos hlt]
  · intro c hc v hv
    subst hv
    rw [hmask] at hc
    have hcv : thresholdCell t d = some v := Option.some.inj hc
    cases d with
    | none => simp [thresholdCell] at hcv
    | some w =>
      by_cases hw : w < t
      · have : w = v := by simpa [thresholdCell, if_pos hw] using hcv
        exact this ▸ hw
      · simp [thresholdCell, if_neg hw] at hcv

/-- Claim C6 witness: with threshold 2, the cell whose difference is 4
(at or above the threshold) is NaN in the returned mask, not zero. -/
theorem impacted_mask_threshold_witness :
    cellAt (calculate_and_filter_vi_difference_by_threshold
        [[some 0, some 1]] [[some 1, some 5]] 2).cells 0 1 = some none :=
  ((impacted_mask_threshold_spec [[some 0, some 1]] [[some 1, some 5]] 2 0 1 (some 4)
    (by simp [cellAt, vi_difference, gridZip, diffCell, whereCell, subCell]
        norm_num)).2.1) 4 rfl (by norm_num)

/-- Claim C3 (code bug): every call of `calculate_vegetation_index`
raises `NameError` — the dispatch dict eagerly constructs `NDWI()` and
`LAI()` although no class of either name exists in the repository — so
even implemented variants such as NDVI never return their formula, and
the intended unsupported-indicator `ValueError` branch is unreachable. -/
theorem calculate_vegetation_index_always_name_error
    (image : Image) (indicator : VegetationIndex) :
    calculate_vegetation_index image indicator =
      Except.error (nameErrorMsg VegetationIndex.NDWI) :=
  rfl

/-- Claim C2 counterexample: on a mask whose `geometry_size_px` is 0
(produced here from two all-NaN 1-by-1 rasters), `calculate_impacted_area`
returns `(nan, nan)` — numpy's 0/0 — instead of raising any error. -/
theorem calculate_impacted_area_returns_on_zero_pixels :
    calculate_impacted_area 100
        (calculate_and_filter_vi_difference_by_threshold [[none]] [[none]] 0) =
      Except.ok (PyFloat.nan, PyFloat.nan) :=
  rfl

/-- Claim C2 (amended): `calculate_impacted_area` performs no zero
check: on every pipeline-produced mask recording `geometry_size_px = 0`
(all cells were already NaN before filtering, so the numerator is 0 as
well), the 0/0 division yields NaN and the function returns `(nan, nan)`
without raising. -/
theorem calculate_impacted_area_nan_on_zero_pixels (geometry_area : ℚ)
    (before after : Grid) (t : ℚ)
    (h0 : (calculate_and_filter_vi_difference_by_threshold before after t).geometry_size_px
      = 0) :
    calculate_impacted_area geometry_area
        (calculate_and_filter_vi_difference_by_threshold before after t) =
      Except.ok (PyFloat.nan, PyFloat.nan) := by
  have hle : notnullCount (calculate_and_filter_vi_difference_by_threshold
        before after t).cells ≤ notnullCount (vi_difference before after) := by
    refine notnullCount_gridMap_le (thresholdCell t) ?_ (vi_difference before after)
    intro c hc
    cases c with
    | none => simp [thresholdCell] at hc
    | some v => rfl
  have hsz : (calculate_and_filter_vi_difference_by_threshold before after t).geometry_size_px
      = notnullCount (vi_difference before after) := rfl
  have hcount : notnullCount (calculate_and_filter_vi_difference_by_threshold
      before after t).cells = 0 := by omega
  have h1 : calculate_impacted_area geometry_area
      (calculate_and_filter_vi_difference_by_threshold before after t) =
      Except.ok
        (pyScaleDiv (pyScaleMul geometry_area (pyScaleMul 100
          (pyDivNat (notnullCount (calculate_and_filter_vi_difference_by_threshold
            before after t).cells)
          (calculate_and_filter_vi_difference_by_threshold before after t).geometry_size_px)))
          100,
        pyScaleMul 100 (pyDivNat
          (notnullCount (calculate_and_filter_vi_difference_by_threshold before after t).cells)
          (calculate_and_filter_vi_difference_by_threshold before after t).geometry_size_px)) :=
    rfl
  rw [h1, hcount, h0]
  rfl

/-- Claim C2 witness: a concrete degenerate mask (every cell NaN in one
of the two inputs) for the amended claim. -/
theorem calculate_impacted_area_nan_witness :
    calculate_impacted_area 50
        (calculate_and_filter_vi_difference_by_threshold
          [[some 1, none]] [[none, some 2]] 2) =
      Except.ok (PyFloat.nan, PyFloat.nan) :=
  calculate_impacted_area_nan_on_zero_pixels 50 [[some 1, none]] [[none, some 2]] 2
    (by decide)

/-- Claim C9: for a pipeline-produced mask with positive
`geometry_size_px`, the returned percentage lies in `[0, 100]` (the
filtered mask never has more valid cells than the pre-filter count used
as denominator) and the returned area is the polygon area times the
percentage over 100. -/
theorem calculate_impacted_area_percentage_bounds (geometry_area : ℚ)
    (before after : Grid) (t : ℚ)
    (hpos : 0 < (calculate_and_filter_vi_difference_by_threshold
      before after t).geometry_size_px) :
    ∃ p : ℚ,
      calculate_impacted_area geometry_area
          (calculate_and_filter_vi_difference_by_threshold before after t) =
        Except.ok (PyFloat.val (geometry_area * p / 100), PyFloat.val p) ∧
      0 ≤ p ∧ p ≤ 100 := by
  have hle : notnullCount (calculate_and_filter_vi_difference_by_threshold
        before after t).cells ≤ notnullCount (vi_difference before after) := by
    refine notnullCount_gridMap_le (thresholdCell t) ?_ (vi_difference before after)
    intro c hc
    cases c with
    | none => simp [thresholdCell] at hc
    | some v => rfl
  have hsz : (calculate_and_filter_vi_difference_by_threshold before after t).geometry_size_px
      = notnullCount (vi_difference before after) := rfl
  set cnt := notnullCount
    (calculate_and_filter_vi_difference_by_threshold before after t).cells with hcnt
  set sz := (calculate_and_filter_vi_difference_by_threshold
    before after t).geometry_size_px with hszdef
  have hcle : cnt ≤ sz := by omega
  have hszne : sz ≠ 0 := Nat.pos_iff_ne_zero.mp hpos
  have hszq : (0 : ℚ) < (sz : ℚ) := by exact_mod_cast hpos
  refine ⟨100 * ((cnt : ℚ) / (sz : ℚ)), ?_, ?_, ?_⟩
  · have h1 : calculate_impacted_area geometry_area
        (calculate_and_filter_vi_difference_by_threshold before after t) =
        Except.ok (pyScaleDiv (pyScaleMul geometry_area
            (pyScaleMul 100 (pyDivNat cnt sz))) 100,
          pyScaleMul 100 (pyDivNat cnt sz)) := rfl
    rw [h1]
    rw [show pyDivNat cnt sz = PyFloat.val ((cnt : ℚ) / (sz : ℚ)) by
      unfold pyDivNat; rw [if_neg hszne]]
    rw [show pyScaleMul 100 (PyFloat.val ((cnt : ℚ) / (sz : ℚ))) =
      PyFloat.val (100 * ((cnt : ℚ) / (sz : ℚ))) from rfl]
    rw [show pyScaleMul geometry_area (PyFloat.val (100 * ((cnt : ℚ) / (sz : ℚ)))) =
      PyFloat.val (geometry_area * (100 * ((cnt : ℚ) / (sz : ℚ)))) from rfl]
    rw [show pyScaleDiv (PyFloat.val (geometry_area * (100 * ((cnt : ℚ) / (sz : ℚ))))) 100 =
      PyFloat.val (geometry_area * (100 * ((cnt : ℚ) / (sz : ℚ))) / 100) by
      unfold pyScaleDiv
      dsimp only
      rw [if_neg (by norm_num : ¬(100 : ℚ) = 0)]]
  · positivity
  · have hq : (cnt : ℚ) / (sz : ℚ) ≤ 1 :=
      (div_le_one hszq).mpr (by exact_mod_cast hcle)
    linarith

/-- Claim C9 witness: a 2-by-2 example with two pre-filter valid cells,
one surviving the threshold, giving a 50 percent impacted area. -/
theorem calculate_impacted_area_percentage_witness :
    ∃ p : ℚ,
      calculate_impacted_area 100
          (calculate_and_filter_vi_difference_by_threshold
            [[some 0, none], [some 1, some 2]] [[some 1, some 5], [none, some 2]] 1) =
        Except.ok (PyFloat.val (100 * p / 100), PyFloat.val p) ∧
      0 ≤ p ∧ p ≤ 100 :=
  calculate_impacted_area_percentage_bounds 100
    [[some 0, none], [some 1, some 2]] [[some 1, some 5], [none, some 2]] 1 (by decide)

/-- Claim C7: on a chronologically sorted data cube, the
nearest-clear-image search returns as before-slice the latest time
strictly before the event date whose clear-pixel fraction exceeds
`1 - p/100` (the reverse-chronological scan stops at its first hit), and
as after-slice the earliest time strictly after the event date whose
clear-pixel fraction exceeds `p/100` — the two comparisons being
asymmetric exactly as in the source. -/
theorem nearest_clear_image_search_spec (cube : StacDatacube) (event_date : Date)
    (p : ℤ) (hsorted : List.Pairwise (fun a b => a < b) cube.times) :
    (∀ t, (get_nearest_event_date_time_indices cube event_date p).1 = some t ↔
        t ∈ cube.times ∧ t < event_date ∧
        1 - (p : ℚ) * (1 / 100) < cloud_free_percentage cube t ∧
        ∀ u ∈ cube.times, u < event_date →
          1 - (p : ℚ) * (1 / 100) < cloud_free_percentage cube u → u ≤ t) ∧
    (∀ t, (get_nearest_event_date_time_indices cube event_date p).2 = some t ↔
        t ∈ cube.times ∧ event_date < t ∧
        (p : ℚ) * (1 / 100) < cloud_free_percentage cube t ∧
        ∀ u ∈ cube.times, event_date < u →
          (p : ℚ) * (1 / 100) < cloud_free_percentage cube u → t ≤ u) := by
  constructor
  · intro t
    have hpair : List.Pairwise (fun a b => b < a)
        ((cube.times.filter (fun u => decide (u ≤ event_date - 1))).reverse) :=
      List.pairwise_reverse.mpr (hsorted.filter _)
    have hfind := find?_pairwise_eq_some (R := fun a b => b < a)
      (fun x y h1 h2 => lt_asymm h1 h2) hpair
      (q := fun u => decide (1 - (p : ℚ) * (1 / 100) < cloud_free_percentage cube u))
      (x := t)
    show ((cube.times.filter (fun u => decide (u ≤ event_date - 1))).reverse.find?
        (fun u => decide (1 - (p : ℚ) * (1 / 100) < cloud_free_percentage cube u))
          = some t) ↔ _
    rw [hfind]
    constructor
    · rintro ⟨hmem, hq, hmax⟩
      obtain ⟨hmem', hle⟩ := List.mem_filter.mp (List.mem_reverse.mp hmem)
      have hle' : t ≤ event_date - 1 := of_decide_eq_true hle
      refine ⟨hmem', Int.le_sub_one_iff.mp hle', of_decide_eq_true hq, ?_⟩
      intro u hu hult hfrac
      have hu' : u ∈ (cube.times.filter (fun v => decide (v ≤ event_date - 1))).reverse :=
        List.mem_reverse.mpr (List.mem_filter.mpr
          ⟨hu, decide_eq_true (Int.le_sub_one_iff.mpr hult)⟩)
      rcases hmax u hu' (decide_eq_true hfrac) with h | h
      · exact le_of_eq h.symm
      · exact le_of_lt h
    · rintro ⟨hmem, hlt, hfrac, hmax⟩
      refine ⟨List.mem_reverse.mpr (List.mem_filter.mpr
        ⟨hmem, decide_eq_true (Int.le_sub_one_iff.mpr hlt)⟩),
        decide_eq_true hfrac, ?_⟩
      intro y hy hqy
      obtain ⟨hy', hyle⟩ := List.mem_filter.mp (List.mem_reverse.mp hy)
      have hyle' : y ≤ event_date - 1 := of_decide_eq_true hyle
      have hyt := hmax y hy' (Int.le_sub_one_iff.mp hyle') (of_decide_eq_true hqy)
      exact (eq_or_lt_of_le hyt).imp (fun h => h.symm) (fun h => h)
  · intro t
    have hpair : List.Pairwise (fun a b => a < b)
        (cube.times.filter (fun u => decide (event_date + 1 ≤ u))) :=
      hsorted.filter _
    have hfind := find?_pairwise_eq_some (R := fun a b => a < b)
      (fun x y h1 h2 => lt_asymm h1 h2) hpair
      (q := fun u => decide ((p : ℚ) * (1 / 100) < cloud_free_percentage cube u))
      (x := t)
    show ((cube.times.filter (fun u => decide (event_date + 1 ≤ u))).find?
        (fun u => decide ((p : ℚ) * (1 / 100) < cloud_free_percentage cube u))
          = some t) ↔ _
    rw [hfind]
    constructor
    · rintro ⟨hmem, hq, hmax⟩
      obtain ⟨hmem', hge⟩ := List.mem_filter.mp hmem
      have hge' : event_date + 1 ≤ t := of_decide_eq_true hge
      refine ⟨hmem', Int.add_one_le_iff.mp hge', of_decide_eq_true hq, ?_⟩
      intro u hu hult hfrac
      have hu' : u ∈ cube.times.filter (fun v => decide (event_date + 1 ≤ v)) :=
        List.mem_filter.mpr ⟨hu, decide_eq_true (Int.add_one_le_iff.mpr hult)⟩
      rcases hmax u hu' (decide_eq_true hfrac) with h | h
      · exact le_of_eq h
      · exact le_of_lt h
    · rintro ⟨hmem, hlt, hfrac, hmax⟩
      refine ⟨List.mem_filter.mpr
        ⟨hmem, decide_eq_true (Int.add_one_le_iff.mpr hlt)⟩,
        decide_eq_true hfrac, ?_⟩
      intro y hy hqy
      obtain ⟨hy', hyge⟩ := List.mem_filter.mp hy
      have hyge' : event_date + 1 ≤ y := of_decide_eq_true hyge
      have hty := hmax y hy' (Int.add_one_le_iff.mp hyge') (of_decide_eq_true hqy)
      exact eq_or_lt_of_le hty

/-- Claim C7 witness: on `witnessCube` with event day 4 and maximum
cloud cover 20 percent, the search picks day 2 before (clear fraction
0.9 > 0.8) and day 6 after (0.3 > 0.2). -/
theorem nearest_clear_image_search_witness :
    (get_nearest_event_date_time_indices witnessCube 4 20).1 = some 2 ∧
    (get_nearest_event_date_time_indices witnessCube 4 20).2 = some 6 :=
  ⟨((nearest_clear_image_search_spec witnessCube 4 20 (by decide)).1 2).mpr
      (by refine ⟨by decide, by decide, by norm_num [cloud_free_percentage, witnessCube], ?_⟩
          intro u hu hult hfrac
          fin_cases hu <;> norm_num [cloud_free_percentage, witnessCube] at *),
   ((nearest_clear_image_search_spec witnessCube 4 20 (by decide)).2 6).mpr
      (by refine ⟨by decide, by decide, by norm_num [cloud_free_percentage, witnessCube], ?_⟩
          intro u hu hult hfrac
          fin_cases hu <;> norm_num [cloud_free_percentage, witnessCube] at *)⟩

end ImpactedAreas
